import Mathlib

/-!
Shallow embedding of the hexswarm task-delegation core
(src/agent_mcp/protocol.py, storage.py, resources.py, server.py).

Modelling conventions:
* Python dataclasses become Lean structures with the same field names.
* Python floats (durations, costs, timestamps) become exact rationals.
* Filesystem and asyncio effects become explicit state passing: the
  per-task on-disk layout is a function from status to file presence,
  the storage content is a list of records, and the lifecycle methods
  return the sequence of storage writes and resource-tracker calls
  they perform.
-/

namespace HexSwarm

/-- The TaskType enum of protocol.py. -/
inductive TaskType
  | code
  | research
  | analysis
  | general
deriving DecidableEq, Repr

/-- Lowercase string value of a TaskType, as serialized on the wire. -/
def TaskType.value : TaskType → String
  | .code => "code"
  | .research => "research"
  | .analysis => "analysis"
  | .general => "general"

/-- Parse a TaskType from its wire string; the Python enum constructor
raises ValueError on anything else, modelled as none. -/
def TaskType.ofString (s : String) : Option TaskType :=
  if s = "code" then some .code
  else if s = "research" then some .research
  else if s = "analysis" then some .analysis
  else if s = "general" then some .general
  else none

/-- The TaskStatus enum of protocol.py. -/
inductive TaskStatus
  | pending
  | running
  | completed
  | failed
  | cancelled
deriving DecidableEq, Repr

/-- Lowercase string value of a TaskStatus. -/
def TaskStatus.value : TaskStatus → String
  | .pending => "pending"
  | .running => "running"
  | .completed => "completed"
  | .failed => "failed"
  | .cancelled => "cancelled"

/-- Iteration order of the TaskStatus enum, as in for status in TaskStatus. -/
def TaskStatus.all : List TaskStatus :=
  [.pending, .running, .completed, .failed, .cancelled]

/-- The TaskPriority enum of protocol.py. -/
inductive TaskPriority
  | low
  | normal
  | high
deriving DecidableEq, Repr

/-- Lowercase string value of a TaskPriority. -/
def TaskPriority.value : TaskPriority → String
  | .low => "low"
  | .normal => "normal"
  | .high => "high"

/-- Parse a TaskPriority from its wire string. -/
def TaskPriority.ofString (s : String) : Option TaskPriority :=
  if s = "low" then some .low
  else if s = "normal" then some .normal
  else if s = "high" then some .high
  else none

/-- The OutputFormat enum of protocol.py. -/
inductive OutputFormat
  | text
  | json
  | file
deriving DecidableEq, Repr

/-- Lowercase string value of an OutputFormat. -/
def OutputFormat.value : OutputFormat → String
  | .text => "text"
  | .json => "json"
  | .file => "file"

/-- Parse an OutputFormat from its wire string. -/
def OutputFormat.ofString (s : String) : Option OutputFormat :=
  if s = "text" then some .text
  else if s = "json" then some .json
  else if s = "file" then some .file
  else none

/-- The TaskRequest dataclass of protocol.py. -/
structure TaskRequest where
  type : TaskType
  description : String
  files : List String := []
  context : Option String := none
  constraints : List String := []
  output_format : OutputFormat := .text
  priority : TaskPriority := .normal
  callback : Option String := none
  timeout_seconds : Option Int := none
deriving DecidableEq, Repr

/-- The wire dictionary shape produced by TaskRequest.to_dict and consumed
by TaskRequest.from_dict.  Each field is optional because from_dict reads
every key with data.get; a Python value of None and an absent key behave
identically under get and are both modelled as none. -/
structure TaskRequestWire where
  type : Option String := none
  description : Option String := none
  files : Option (List String) := none
  context : Option String := none
  constraints : Option (List String) := none
  output_format : Option String := none
  priority : Option String := none
  callback : Option String := none
  timeout_seconds : Option Int := none
deriving DecidableEq, Repr

/-- TaskRequest.to_dict: every key is written, enums as their string value. -/
def TaskRequest.to_dict (r : TaskRequest) : TaskRequestWire :=
  { type := some r.type.value
    description := some r.description
    files := some r.files
    context := r.context
    constraints := some r.constraints
    output_format := some r.output_format.value
    priority := some r.priority.value
    callback := r.callback
    timeout_seconds := r.timeout_seconds }

/-- TaskRequest.from_dict: missing keys fall back to the dataclass defaults
(type general, empty description, empty lists, text format, normal
priority); present enum strings are parsed by the enum constructors, which
fail on unknown strings.  The Python expression
list(data.get("files", []) or []) maps both an absent key and an empty or
None value to the empty list, which getD also does on this model. -/
def TaskRequest.from_dict (data : TaskRequestWire) : Option TaskRequest := do
  let ty ← match data.type with
    | none => some TaskType.general
    | some s => TaskType.ofString s
  let fmt ← match data.output_format with
    | none => some OutputFormat.text
    | some s => OutputFormat.ofString s
  let prio ← match data.priority with
    | none => some TaskPriority.normal
    | some s => TaskPriority.ofString s
  some
    { type := ty
      description := data.description.getD ""
      files := data.files.getD []
      context := data.context
      constraints := data.constraints.getD []
      output_format := fmt
      priority := prio
      callback := data.callback
      timeout_seconds := data.timeout_seconds }

/-- The TaskResult dataclass of protocol.py.  The opaque result payload is
modelled as an optional string. -/
structure TaskResult where
  task_id : String
  status : TaskStatus
  result : Option String := none
  files_created : List String := []
  summary : Option String := none
  token_usage : Option Nat := none
  duration_seconds : Option Rat := none
  error : Option String := none
deriving DecidableEq, Repr

/-- The TaskRecord dataclass of protocol.py. -/
structure TaskRecord where
  task_id : String
  request : TaskRequest
  status : TaskStatus := .pending
  created_at : String
  started_at : Option String := none
  completed_at : Option String := none
  progress : Option Int := none
  result : Option TaskResult := none
  error : Option String := none
  requester_did : Option String := none
deriving DecidableEq, Repr

/-! ## Persistent task store (storage.py)

TaskStorage.write_task is modelled per task identifier: the on-disk state
of one task is the set of status directories that hold a file named after
it, a function from TaskStatus to Bool.  The transient .json.tmp file and
the lock file live outside the status-directory layout and are gone when
write_task returns, so they do not appear in the post state. -/

namespace TaskStorage

/-- One iteration of the cleanup loop in write_task: if the visited status
differs from the target status, the file for this task in that directory
is unlinked when present.  Unlinking an absent file and unlinking a
present one both leave the slot empty. -/
def unlinkStep (target cur : TaskStatus) (st : TaskStatus → Bool) :
    TaskStatus → Bool :=
  if cur ≠ target then fun t => if t = cur then false else st t else st

/-- TaskStorage.write_task for one task identifier: under the task lock,
remove the file from every status directory other than the target, then
atomically install the serialized record in the target directory. -/
def write_task (target : TaskStatus) (st : TaskStatus → Bool) :
    TaskStatus → Bool :=
  let cleared := TaskStatus.all.foldl (fun acc cur => unlinkStep target cur acc) st
  fun t => if t = target then true else cleared t

end TaskStorage

/-! ## Orchestrating server (server.py)

BaseAgentServer drives the task lifecycle.  Its methods are modelled as
pure functions returning the mutated record together with the list of
storage.write_task calls and resource-tracker invocations they perform. -/

/-- The reconciliation error message used by BaseAgentServer loading tasks. -/
def serverRestartError : String := "Server restarted while task was running."

/-- The per-record step of the startup loop in BaseAgentServer: a record
found RUNNING is reclassified to FAILED with the standard reconciliation
error and a completion timestamp; every other record is untouched. -/
def reconcileRecord (now : String) (r : TaskRecord) : TaskRecord :=
  if r.status = TaskStatus.running then
    { r with status := .failed, completed_at := some now,
             error := some serverRestartError }
  else r

/-- The startup reconciliation of BaseAgentServer over the records returned
by storage.load_all: the first component is the resulting in-memory task
cache, the second the records passed to storage.write_task (exactly the
reclassified RUNNING ones). -/
def load_tasks (now : String) (tasks : List TaskRecord) :
    List TaskRecord × List TaskRecord :=
  (tasks.map (reconcileRecord now),
   (tasks.filter (fun r => r.status = TaskStatus.running)).map (reconcileRecord now))

/-- The record created by submit_task before it is persisted and run:
fresh identifier, the parsed request, status PENDING, creation timestamp,
optional requester identity, every other field at its default. -/
def submit_record (task_id : String) (request : TaskRequest)
    (requester_did : Option String) (now : String) : TaskRecord :=
  { task_id := task_id, request := request, created_at := now,
    requester_did := requester_did }

/-- Outcome of the awaited execute_task call inside BaseAgentServer:
it returns a result, raises CancelledError, or raises some other
exception carrying a message (a None result is folded into failure by
the code itself before any state change). -/
inductive ExecOutcome
  | success (result : TaskResult)
  | cancelledError
  | failure (msg : String)
deriving DecidableEq, Repr

/-- One invocation of resource_tracker.record_task as issued by the server. -/
structure TrackerCall where
  agent : String
  tokens : Nat
  success : Bool
  error : Option String := none
deriving DecidableEq, Repr

/-- Observable effect of running the task lifecycle: the final in-memory
record, the storage writes in order, the resource-tracker invocations in
order, and the message of an exception escaping the method, if any. -/
structure RunTaskEffect where
  record : TaskRecord
  writes : List TaskRecord
  trackerCalls : List TrackerCall
  raised : Option String := none
deriving Repr

/-- The TaskResult attached by the generic exception branch of the run
path: TaskResult(task_id, status FAILED, error message). -/
def failedResult (task_id msg : String) : TaskResult :=
  { task_id := task_id, status := .failed, error := some msg }

/-- The head of the run path: mark the record RUNNING with a start
timestamp (this record is then persisted). -/
def run_task_start (startNow : String) (record : TaskRecord) : TaskRecord :=
  { record with status := .running, started_at := some startNow }

/-- The continuation of the run path after the executor call returns,
taking the in-memory record as it stands at that moment (under the
cancellation race, cancel_task may already have rewritten it).  The
success branch sets COMPLETED, stamps the duration on the result, attaches
it, persists, then reports success to the resource tracker; that tracker
call still sits inside the try block, so when it raises (trackerExc1) the
generic exception branch runs: the record is rewritten FAILED with the
tracker error, persisted again, and the tracker is invoked a second time
(trackerExc2 escaping the method if that one raises too).  The
CancelledError and generic-exception branches persist CANCELLED or FAILED
and report failure to the tracker, whose exception, if any, escapes. -/
def run_task_finish (agentName now : String) (dur : Rat)
    (record : TaskRecord) (outcome : ExecOutcome)
    (trackerExc1 trackerExc2 : Option String) : RunTaskEffect :=
  match outcome with
  | .success result =>
      let result1 := { result with duration_seconds := some dur }
      let rc1 := { record with
                    status := TaskStatus.completed
                    completed_at := some now
                    result := some result1 }
      let tokens := result.token_usage.getD 0
      match trackerExc1 with
      | none =>
          { record := rc1, writes := [rc1],
            trackerCalls := [⟨agentName, tokens, true, none⟩],
            raised := none }
      | some msg =>
          let rc2 := { rc1 with
                        status := TaskStatus.failed
                        completed_at := some now
                        error := some msg
                        result := some (failedResult record.task_id msg) }
          { record := rc2, writes := [rc1, rc2],
            trackerCalls := [⟨agentName, tokens, true, none⟩,
                             ⟨agentName, 0, false, some msg⟩],
            raised := trackerExc2 }
  | .cancelledError =>
      let rc1 := { record with
                    status := TaskStatus.cancelled
                    completed_at := some now
                    error := some "cancelled" }
      { record := rc1, writes := [rc1],
        trackerCalls := [⟨agentName, 0, false, some "cancelled"⟩],
        raised := trackerExc1 }
  | .failure msg =>
      let rc1 := { record with
                    status := TaskStatus.failed
                    completed_at := some now
                    error := some msg
                    result := some (failedResult record.task_id msg) }
      { record := rc1, writes := [rc1],
        trackerCalls := [⟨agentName, 0, false, some msg⟩],
        raised := trackerExc1 }

/-- The whole run path of BaseAgentServer: persist the RUNNING record,
await the executor, then finish as above. -/
def run_task (agentName startNow now : String) (dur : Rat)
    (record : TaskRecord) (outcome : ExecOutcome)
    (trackerExc1 trackerExc2 : Option String) : RunTaskEffect :=
  let rc0 := run_task_start startNow record
  let eff := run_task_finish agentName now dur rc0 outcome trackerExc1 trackerExc2
  { eff with writes := rc0 :: eff.writes }

/-- Response of cancel_task. -/
structure CancelResponse where
  success : Bool
  status : String
deriving DecidableEq, Repr

/-- Result of cancel_task: the record as left in the cache, the storage
writes, and the response. -/
structure CancelEffect where
  record : Option TaskRecord
  writes : List TaskRecord
  response : CancelResponse
deriving Repr

/-- cancel_task: an unknown identifier reports status unknown; a record
already terminal is left alone; otherwise the record is rewritten
CANCELLED with a completion timestamp and the supplied reason (default
string cancelled) and persisted. -/
def cancel_task (now : String) (reason : Option String)
    (record : Option TaskRecord) : CancelEffect :=
  match record with
  | none => { record := none, writes := [], response := ⟨false, "unknown"⟩ }
  | some r =>
      if r.status = TaskStatus.completed ∨ r.status = TaskStatus.failed ∨
          r.status = TaskStatus.cancelled then
        { record := some r, writes := [], response := ⟨false, r.status.value⟩ }
      else
        let r1 := { r with
                    status := TaskStatus.cancelled
                    completed_at := some now
                    error := some (reason.getD "cancelled") }
        { record := some r1, writes := [r1], response := ⟨true, "cancelled"⟩ }

/-- Look a task up in the in-memory cache (a dict keyed by identifier). -/
def lookupTask : List (String × TaskRecord) → String → Option TaskRecord
  | [], _ => none
  | p :: ps, tid => if p.1 = tid then some p.2 else lookupTask ps tid

/-- storage.load_task: scan the status directories for a file named after
the identifier; the store is modelled by its record contents (one record
per file), so this is a search by identifier. -/
def storage_load_task (store : List TaskRecord) (tid : String) :
    Option TaskRecord :=
  store.find? (fun r => r.task_id = tid)

/-- The record both read operations resolve: the in-memory cache first,
the store as fallback (TaskRecord objects are always truthy in Python, so
the or expression is exactly this orElse). -/
def resolve_record (mem : List (String × TaskRecord))
    (store : List TaskRecord) (tid : String) : Option TaskRecord :=
  (lookupTask mem tid).orElse (fun _ => storage_load_task store tid)

/-- Response dictionary of task_status. -/
structure StatusResponse where
  task_id : String
  status : String
  progress : Option Int := none
  started_at : Option String := none
  completed_at : Option String := none
  error : Option String := none
deriving DecidableEq, Repr

/-- task_status: a defined response for every identifier; unrecognized
identifiers get status unknown. -/
def task_status (mem : List (String × TaskRecord)) (store : List TaskRecord)
    (tid : String) : StatusResponse :=
  match resolve_record mem store tid with
  | none => { task_id := tid, status := "unknown" }
  | some r =>
      { task_id := tid, status := r.status.value, progress := r.progress,
        started_at := r.started_at, completed_at := r.completed_at,
        error := r.error }

/-- The possible response shapes of task_result. -/
inductive ResultResponse
  | unknown (task_id : String)
  | statusOnly (task_id : String) (status : String)
  | payload (result : TaskResult)
  | terminalNoResult (task_id : String) (status : String) (error : Option String)
deriving DecidableEq, Repr

/-- task_result: unknown identifiers get status unknown; a record whose
status is neither COMPLETED nor FAILED is reported by its current status
with no result payload; otherwise the stored result dictionary is
returned, or a terminal status with the error when no result was
attached. -/
def task_result (mem : List (String × TaskRecord)) (store : List TaskRecord)
    (tid : String) : ResultResponse :=
  match resolve_record mem store tid with
  | none => .unknown tid
  | some r =>
      if r.status = TaskStatus.completed ∨ r.status = TaskStatus.failed then
        match r.result with
        | some res => .payload res
        | none => .terminalNoResult tid r.status.value r.error
      else .statusOnly tid r.status.value

/-! ## Resource tracker (resources.py)

Floats (cost budgets, timestamps, the percentage) are modelled as exact
rationals; the comparisons the predicates make are decidable there. -/

/-- The AgentResources dataclass of resources.py. -/
structure AgentResources where
  name : String
  context_limit : Int
  context_used : Int := 0
  tokens_used_session : Int := 0
  tasks_completed : Nat := 0
  tasks_failed : Nat := 0
  last_task_at : Option Rat := none
  last_error : Option String := none
  token_budget : Int := 0
  cost_budget_usd : Rat := 0
  cost_used_usd : Rat := 0
deriving DecidableEq, Repr

/-- context_remaining: max(0, context_limit - context_used). -/
def AgentResources.context_remaining (a : AgentResources) : Int :=
  max 0 (a.context_limit - a.context_used)

/-- context_percent_used: 0.0 when the limit is zero, otherwise
(context_used / context_limit) * 100. -/
def AgentResources.context_percent_used (a : AgentResources) : Rat :=
  if a.context_limit = 0 then 0
  else ((a.context_used : Rat) / (a.context_limit : Rat)) * 100

/-- is_exhausted: more than 90 percent of context used. -/
def AgentResources.is_exhausted (a : AgentResources) : Bool :=
  decide (a.context_percent_used > 90)

/-- is_budget_exhausted: a nonzero token or cost budget has been reached. -/
def AgentResources.is_budget_exhausted (a : AgentResources) : Bool :=
  if a.token_budget > 0 ∧ a.tokens_used_session ≥ a.token_budget then true
  else if a.cost_budget_usd > 0 ∧ a.cost_used_usd ≥ a.cost_budget_usd then true
  else false

/-- can_accept_task: neither exhausted nor budget-exhausted. -/
def AgentResources.can_accept_task (a : AgentResources) : Bool :=
  !a.is_exhausted && !a.is_budget_exhausted

/-- AgentResources.record_task: add the token count to the session usage
and to the context-usage approximation, stamp the time, then bump the
completed counter on success or the failed counter and last error on
failure. -/
def AgentResources.record_task (a : AgentResources) (tokens_used : Int)
    (success : Bool) (error : Option String) (now : Rat) : AgentResources :=
  let a1 := { a with
    tokens_used_session := a.tokens_used_session + tokens_used
    context_used := a.context_used + tokens_used
    last_task_at := some now }
  if success then { a1 with tasks_completed := a1.tasks_completed + 1 }
  else { a1 with tasks_failed := a1.tasks_failed + 1, last_error := error }

/-- The AGENT_CONTEXT_LIMITS table of resources.py. -/
def AGENT_CONTEXT_LIMITS : List (String × Int) :=
  [("codex", 128000), ("gemini", 1000000), ("hex", 200000)]

/-- Association lookup by agent name (insertion-ordered dict). -/
def lookupAgent : List (String × AgentResources) → String → Option AgentResources
  | [], _ => none
  | p :: ps, n => if p.1 = n then some p.2 else lookupAgent ps n

/-- Association lookup in a plain string table. -/
def lookupTable : List (String × Int) → String → Option Int
  | [], _ => none
  | p :: ps, n => if p.1 = n then some p.2 else lookupTable ps n

/-- The in-memory state of a ResourceTracker: its agents dict. -/
structure ResourceTracker where
  agents : List (String × AgentResources)
deriving Repr

/-- The ledger file written wholesale by ResourceTracker saving state:
every agent entry plus an update timestamp. -/
structure Ledger where
  agents : List (String × AgentResources)
  updated_at : Rat
deriving Repr

/-- ResourceTracker.get_agent: return the tracked entry, creating it
lazily with the default context limit for the name (100000 when the name
is not in AGENT_CONTEXT_LIMITS); the returned tracker reflects the
insertion. -/
def ResourceTracker.get_agent (t : ResourceTracker) (name : String) :
    AgentResources × ResourceTracker :=
  match lookupAgent t.agents name with
  | some a => (a, t)
  | none =>
      let a : AgentResources :=
        { name := name
          context_limit := (lookupTable AGENT_CONTEXT_LIMITS name).getD 100000 }
      (a, ⟨t.agents ++ [(name, a)]⟩)

/-- ResourceTracker.record_task: fetch or create the agent entry, apply
AgentResources.record_task to it, then persist the whole ledger. -/
def ResourceTracker.record_task (t : ResourceTracker) (agent_name : String)
    (tokens_used : Int) (success : Bool) (error : Option String)
    (now : Rat) : ResourceTracker × Ledger :=
  let got := t.get_agent agent_name
  let agent1 := got.1.record_task tokens_used success error now
  let t2 : ResourceTracker :=
    ⟨got.2.agents.map (fun p => if p.1 = agent_name then (p.1, agent1) else p)⟩
  (t2, { agents := t2.agents, updated_at := now })

/-- The fixed capability table inside best_agent_for. -/
def capabilities : List (String × List String) :=
  [("codex", ["code", "analysis"]), ("gemini", ["research", "analysis", "general"])]

/-- The candidate list built by the filter loop of best_agent_for: for
each capability entry in table order, skip excluded names and names not
declaring the task type, look the agent up (created lazily, which only
inserts that very name and so does not change any other lookup), and keep
the pair of name and remaining context when the agent can accept work. -/
def candidateList (t : ResourceTracker) (task_type : String)
    (exclude : List String) : List (String × Int) :=
  capabilities.filterMap (fun p =>
    if p.1 ∈ exclude then none
    else if task_type ∈ p.2 then
      (let a := (t.get_agent p.1).1
       if a.can_accept_task then some (p.1, a.context_remaining) else none)
    else none)

/-- Stable descending insertion by the numeric key, mirroring the Python
stable sort with reverse true: an element moves past entries with a
strictly greater key and lands before the first entry whose key is not
greater. -/
def insertDesc (x : String × Int) : List (String × Int) → List (String × Int)
  | [] => [x]
  | y :: ys => if x.2 < y.2 then y :: insertDesc x ys else x :: y :: ys

/-- Sort a candidate list by key, greatest first. -/
def sortDesc : List (String × Int) → List (String × Int)
  | [] => []
  | x :: xs => insertDesc x (sortDesc xs)

/-- ResourceTracker.best_agent_for: build the candidate list, return None
when it is empty, otherwise the name at the head of the list sorted by
remaining context, greatest first. -/
def ResourceTracker.best_agent_for (t : ResourceTracker) (task_type : String)
    (exclude : List String) : Option String :=
  match sortDesc (candidateList t task_type exclude) with
  | [] => none
  | c :: _ => some c.1

/-! ## Concrete example values used by witnesses and counterexamples. -/

/-- A minimal valid request, as in the end-to-end demo of the tests. -/
def exRequest : TaskRequest := { type := .general, description := "demo" }

/-- A RUNNING record left behind by an unclean shutdown. -/
def c5ex_running : TaskRecord :=
  { task_id := "task_5", request := exRequest, status := .running,
    created_at := "t0", started_at := some "t1" }

/-- A RUNNING record whose executor is still in flight. -/
def c2ex_running : TaskRecord :=
  { task_id := "task_2", request := exRequest, status := .running,
    created_at := "t0", started_at := some "t1" }

/-- The record c2ex_running after cancel_task has marked it CANCELLED. -/
def c2ex_cancelled : TaskRecord :=
  { c2ex_running with
    status := .cancelled
    completed_at := some "t2"
    error := some "cancelled" }

/-- The result the in-flight executor of task_2 eventually produces. -/
def c2ex_result : TaskResult :=
  { task_id := "task_2", status := .completed, result := some "ok" }

/-- A freshly submitted record about to be run. -/
def c4ex_record : TaskRecord :=
  { task_id := "task_4", request := exRequest, created_at := "t0" }

/-- A successful executor result reporting five tokens. -/
def c4ex_result : TaskResult :=
  { task_id := "task_4", status := .completed, result := some "ok",
    token_usage := some 5 }

/-- A RUNNING record with no result, as the run path persists it. -/
def c3ex_running : TaskRecord :=
  { task_id := "task_3", request := exRequest, status := .running,
    created_at := "t0", started_at := some "t1" }

/-- What startup reconciliation makes of c3ex_running. -/
def c3ex_reconciled : TaskRecord :=
  { c3ex_running with
    status := .failed
    completed_at := some "t2"
    error := some serverRestartError }

end HexSwarm

namespace HexSwarm

/-- C7: TaskRequest round-trips through its wire dictionary: parsing the
dictionary written by to_dict restores the request field for field. -/
theorem taskRequest_roundtrip (r : TaskRequest) :
    TaskRequest.from_dict (TaskRequest.to_dict r) = some r := by
  rcases r with ⟨ty, d, fs, c, cs, fmt, prio, cb, ts⟩
  cases ty <;> cases fmt <;> cases prio <;>
    simp [TaskRequest.to_dict, TaskRequest.from_dict, TaskType.value,
      TaskType.ofString, OutputFormat.value, OutputFormat.ofString,
      TaskPriority.value, TaskPriority.ofString]

/-- After one write_task, the file for the task sits exactly in the target
status directory, whatever the directories held before. -/
lemma write_task_spec (target : TaskStatus) (st : TaskStatus → Bool)
    (t : TaskStatus) :
    TaskStorage.write_task target st t = true ↔ t = target := by
  cases target <;> cases t <;>
    simp [TaskStorage.write_task, TaskStorage.unlinkStep, TaskStatus.all]

/-- C1: for every initial on-disk state and every sequence of write_task
calls for one task identifier, after each call exactly one file for the
task exists across the status directories, namely in the directory of the
status just written: a directory holds the file precisely when it is the
target of the latest write. -/
theorem write_task_exactly_one (st : TaskStatus → Bool)
    (ws : List TaskStatus) (w : TaskStatus) (t : TaskStatus) :
    List.foldl (fun acc s => TaskStorage.write_task s acc) st (ws ++ [w]) t
      = true ↔ t = w := by
  rw [List.foldl_append]
  exact write_task_spec w _ t

/-- C5: startup reconciliation turns every RUNNING record into a FAILED
record carrying the standard restart error and a completion timestamp and
re-persists exactly those records; records in any other status pass
through unchanged and are not rewritten; no record of the resulting cache
is RUNNING, so nothing is resumed. -/
theorem load_tasks_reconciles (now : String) (tasks : List TaskRecord)
    (r : TaskRecord) (hr : r ∈ tasks) :
    (r.status = TaskStatus.running →
       reconcileRecord now r ∈ (load_tasks now tasks).1 ∧
       reconcileRecord now r ∈ (load_tasks now tasks).2 ∧
       (reconcileRecord now r).status = TaskStatus.failed ∧
       (reconcileRecord now r).error = some serverRestartError ∧
       (reconcileRecord now r).completed_at = some now) ∧
    (r.status ≠ TaskStatus.running →
       reconcileRecord now r = r ∧ r ∈ (load_tasks now tasks).1) ∧
    (∀ c ∈ (load_tasks now tasks).1, c.status ≠ TaskStatus.running) ∧
    (∀ w ∈ (load_tasks now tasks).2,
       w.status = TaskStatus.failed ∧ w.error = some serverRestartError) := by
  refine ⟨fun hrun => ?_, fun hnot => ?_, fun c hc => ?_, fun w hw => ?_⟩
  · refine ⟨List.mem_map_of_mem _ hr, ?_, ?_, ?_, ?_⟩
    · exact List.mem_map_of_mem _
        (List.mem_filter.mpr ⟨hr, by simp [hrun]⟩)
    · simp [reconcileRecord, hrun]
    · simp [reconcileRecord, hrun]
    · simp [reconcileRecord, hrun]
  · have heq : reconcileRecord now r = r := by simp [reconcileRecord, hnot]
    refine ⟨heq, ?_⟩
    have hm := List.mem_map_of_mem (reconcileRecord now) hr
    rw [heq] at hm
    exact hm
  · rcases List.mem_map.mp hc with ⟨x, _, rfl⟩
    by_cases hx : x.status = TaskStatus.running <;>
      simp [reconcileRecord, hx]
  · rcases List.mem_map.mp hw with ⟨x, hx, rfl⟩
    have hxr : x.status = TaskStatus.running := by
      simpa using (List.mem_filter.mp hx).2
    simp [reconcileRecord, hxr]

/-- Concrete witness for the C5 theorem: a single RUNNING record is
reclassified FAILED with the restart error and re-persisted. -/
theorem load_tasks_reconciles_witness :
    reconcileRecord "t2" c5ex_running ∈ (load_tasks "t2" [c5ex_running]).2 ∧
    (reconcileRecord "t2" c5ex_running).status = TaskStatus.failed ∧
    (reconcileRecord "t2" c5ex_running).error = some serverRestartError :=
  ⟨((load_tasks_reconciles "t2" [c5ex_running] c5ex_running
      (by simp)).1 rfl).2.1,
   ((load_tasks_reconciles "t2" [c5ex_running] c5ex_running
      (by simp)).1 rfl).2.2.1,
   ((load_tasks_reconciles "t2" [c5ex_running] c5ex_running
      (by simp)).1 rfl).2.2.2.1⟩

/-- C10: every AgentResources value, a zero context limit included, has a
nonnegative context_remaining; with a zero limit the percentage is the
guarded 0, the agent is not exhausted, and can_accept_task reduces to the
budget check, so the derived predicates are defined everywhere. -/
theorem agentResources_zero_limit_safe (a : AgentResources) :
    0 ≤ a.context_remaining ∧
    (a.context_limit = 0 → a.context_percent_used = 0) ∧
    (a.context_limit = 0 → a.is_exhausted = false) ∧
    (a.context_limit = 0 → a.can_accept_task = !a.is_budget_exhausted) := by
  refine ⟨le_max_left _ _, fun h => ?_, fun h => ?_, fun h => ?_⟩
  · simp [AgentResources.context_percent_used, h]
  · simp [AgentResources.is_exhausted, AgentResources.context_percent_used, h]
  · simp [AgentResources.can_accept_task, AgentResources.is_exhausted,
      AgentResources.context_percent_used, h]

/-- Concrete witness for the C10 theorem at an agent with a zero context
limit. -/
theorem agentResources_zero_limit_safe_witness :
    ({ name := "z", context_limit := 0 } : AgentResources).context_percent_used = 0 ∧
    ({ name := "z", context_limit := 0 } : AgentResources).is_exhausted = false :=
  ⟨(agentResources_zero_limit_safe _).2.1 rfl,
   (agentResources_zero_limit_safe _).2.2.1 rfl⟩

/-- C2 (code evaluation): a RUNNING record is cancelled, leaving it
CANCELLED on disk and in memory; when the still-running executor then
returns successfully, the terminal-write continuation of the run path
rewrites the very same record to COMPLETED and persists it.  The
in-flight future is never registered anywhere, so the cancellation never
reaches the executor, and the success branch checks nothing before
writing: the CANCELLED state does not survive. -/
theorem cancelled_record_overwritten_by_completion :
    c2ex_cancelled.status = TaskStatus.cancelled ∧
    (cancel_task "t2" none (some c2ex_running)).record = some c2ex_cancelled ∧
    (cancel_task "t2" none (some c2ex_running)).writes = [c2ex_cancelled] ∧
    (run_task_finish "hex" "t3" 1 c2ex_cancelled
        (ExecOutcome.success c2ex_result) none none).record.status
      = TaskStatus.completed ∧
    ((run_task_finish "hex" "t3" 1 c2ex_cancelled
        (ExecOutcome.success c2ex_result) none none).writes.map TaskRecord.status)
      = [TaskStatus.completed] := by
  refine ⟨rfl, ?_, ?_, rfl, rfl⟩ <;>
    simp [cancel_task, c2ex_cancelled, c2ex_running]

/-- C4 (code evaluation): the executor succeeds, the COMPLETED record with
its result is persisted, and then the resource-tracker ledger update
raises.  Because that call still sits inside the try block, the generic
exception branch runs: the already persisted COMPLETED terminal record is
overwritten by a FAILED record carrying the tracker error, and the caller
sees FAILED.  The write sequence below shows RUNNING, then the terminal
COMPLETED write, then the FAILED overwrite. -/
theorem tracker_failure_overwrites_completed :
    ((run_task "hex" "t1" "t2" 2 c4ex_record (ExecOutcome.success c4ex_result)
        (some "ledger write failed") none).writes.map TaskRecord.status)
      = [TaskStatus.running, TaskStatus.completed, TaskStatus.failed] ∧
    (run_task "hex" "t1" "t2" 2 c4ex_record (ExecOutcome.success c4ex_result)
        (some "ledger write failed") none).record.status = TaskStatus.failed ∧
    (run_task "hex" "t1" "t2" 2 c4ex_record (ExecOutcome.success c4ex_result)
        (some "ledger write failed") none).record.error
      = some "ledger write failed" := by
  refine ⟨?_, rfl, rfl⟩
  simp [run_task, run_task_start, run_task_finish, c4ex_record, c4ex_result]

/-- C3 (counterexample): startup reconciliation of a RUNNING record with
no result produces a FAILED record still with no result, so the claimed
equivalence between a present result and a terminal success or failure
status does not hold for records produced by reconciliation. -/
theorem reconciled_record_breaks_result_invariant :
    (load_tasks "t2" [c3ex_running]).1 = [c3ex_reconciled] ∧
    c3ex_reconciled.status = TaskStatus.failed ∧
    c3ex_reconciled.result = none ∧
    ¬ (c3ex_reconciled.result.isSome = true ↔
        (c3ex_reconciled.status = TaskStatus.completed ∨
         c3ex_reconciled.status = TaskStatus.failed)) := by
  refine ⟨?_, rfl, rfl, by decide⟩
  simp [load_tasks, reconcileRecord, c3ex_running, c3ex_reconciled]

/-- C3 (amended): records created by submission and every record persisted
by the run path (started from a record with no result, as submission
leaves it) and by cancellation satisfy the invariant that a result is
present exactly when the status is COMPLETED or FAILED; startup
reconciliation instead reclassifies a RUNNING record to FAILED while
leaving its result field untouched, so a reconciled record keeps whatever
result presence it had, not the one the invariant demands. -/
theorem result_invariant_amended :
    (∀ (tid : String) (req : TaskRequest) (did : Option String) (created : String),
       (submit_record tid req did created).result.isSome = true ↔
         ((submit_record tid req did created).status = TaskStatus.completed ∨
          (submit_record tid req did created).status = TaskStatus.failed)) ∧
    (∀ (agent s n : String) (d : Rat) (r : TaskRecord) (outcome : ExecOutcome)
       (t1 t2 : Option String), r.result = none →
       ∀ w ∈ (run_task agent s n d r outcome t1 t2).writes,
         (w.result.isSome = true ↔
           (w.status = TaskStatus.completed ∨ w.status = TaskStatus.failed))) ∧
    (∀ (now : String) (reason : Option String) (r : TaskRecord),
       (r.result.isSome = true ↔
         (r.status = TaskStatus.completed ∨ r.status = TaskStatus.failed)) →
       ∀ w ∈ (cancel_task now reason (some r)).writes,
         (w.result.isSome = true ↔
           (w.status = TaskStatus.completed ∨ w.status = TaskStatus.failed))) ∧
    (∀ (now : String) (r : TaskRecord), r.status = TaskStatus.running →
       (reconcileRecord now r).status = TaskStatus.failed ∧
       (reconcileRecord now r).result = r.result) := by
  refine ⟨fun tid req did created => by simp [submit_record], ?_, ?_, ?_⟩
  · intro agent s n d r outcome t1 t2 hres w hw
    cases outcome with
    | success result =>
        cases t1 with
        | none =>
            simp [run_task, run_task_start, run_task_finish] at hw
            rcases hw with hw | hw <;> subst hw <;> simp [hres]
        | some msg =>
            simp [run_task, run_task_start, run_task_finish] at hw
            rcases hw with hw | hw | hw <;> subst hw <;> simp [hres]
    | cancelledError =>
        simp [run_task, run_task_start, run_task_finish] at hw
        rcases hw with hw | hw <;> subst hw <;> simp [hres]
    | failure msg =>
        simp [run_task, run_task_start, run_task_finish] at hw
        rcases hw with hw | hw <;> subst hw <;> simp [hres]
  · intro now reason r hinv w hw
    by_cases hterm : r.status = TaskStatus.completed ∨ r.status = TaskStatus.failed ∨
        r.status = TaskStatus.cancelled
    · simp [cancel_task, hterm] at hw
    · have hres : r.result.isSome = false := by
        rcases Bool.eq_false_or_eq_true r.result.isSome with h | h
        · exact absurd (hinv.mp h) (by tauto)
        · exact h
      simp [cancel_task, hterm] at hw
      subst hw
      simp [hres]
  · intro now r hrun
    constructor <;> simp [reconcileRecord, hrun]

/-- Membership in an insertion step of the descending sort. -/
lemma mem_insertDesc {a x : String × Int} {l : List (String × Int)} :
    a ∈ insertDesc x l ↔ a = x ∨ a ∈ l := by
  induction l with
  | nil => simp [insertDesc]
  | cons y ys ih =>
      simp only [insertDesc]
      split
      · rw [List.mem_cons, ih, List.mem_cons]
        tauto
      · simp only [List.mem_cons]

/-- An insertion step never yields the empty list. -/
lemma insertDesc_ne_nil (x : String × Int) (l : List (String × Int)) :
    insertDesc x l ≠ [] := by
  cases l with
  | nil => simp [insertDesc]
  | cons y ys =>
      simp only [insertDesc]
      split <;> simp

/-- The descending sort is empty exactly on the empty list. -/
lemma sortDesc_eq_nil_iff (l : List (String × Int)) :
    sortDesc l = [] ↔ l = [] := by
  cases l with
  | nil => simp [sortDesc]
  | cons x xs => simp [sortDesc, insertDesc_ne_nil]

/-- The descending sort preserves membership. -/
lemma mem_sortDesc {a : String × Int} {l : List (String × Int)} :
    a ∈ sortDesc l ↔ a ∈ l := by
  induction l with
  | nil => simp [sortDesc]
  | cons x xs ih => simp [sortDesc, mem_insertDesc, ih]

/-- An insertion step preserves the descending order. -/
lemma pairwise_insertDesc (x : String × Int) (l : List (String × Int))
    (h : l.Pairwise (fun a b => b.2 ≤ a.2)) :
    (insertDesc x l).Pairwise (fun a b => b.2 ≤ a.2) := by
  induction l with
  | nil => simp [insertDesc]
  | cons y ys ih =>
      rcases List.pairwise_cons.mp h with ⟨h1, h2⟩
      simp only [insertDesc]
      split
      · rename_i hlt
        refine List.pairwise_cons.mpr ⟨?_, ih h2⟩
        intro b hb
        rcases mem_insertDesc.mp hb with rfl | hb
        · exact le_of_lt hlt
        · exact h1 b hb
      · rename_i hge
        refine List.pairwise_cons.mpr ⟨?_, h⟩
        intro b hb
        rcases List.mem_cons.mp hb with rfl | hb
        · exact le_of_not_lt hge
        · exact le_trans (h1 b hb) (le_of_not_lt hge)

/-- The descending sort is sorted, greatest key first. -/
lemma pairwise_sortDesc (l : List (String × Int)) :
    (sortDesc l).Pairwise (fun a b => b.2 ≤ a.2) := by
  induction l with
  | nil => simp [sortDesc]
  | cons x xs ih => exact pairwise_insertDesc x _ ih

/-- The head of the descending sort bounds every key of the list. -/
lemma sortDesc_head_max {l : List (String × Int)} {c : String × Int}
    {rest : List (String × Int)} (h : sortDesc l = c :: rest) :
    ∀ a ∈ l, a.2 ≤ c.2 := by
  intro a ha
  have ham : a ∈ c :: rest := by rw [← h]; exact mem_sortDesc.mpr ha
  rcases List.mem_cons.mp ham with rfl | ham
  · exact le_refl _
  · have hp := pairwise_sortDesc l
    rw [h] at hp
    exact (List.pairwise_cons.mp hp).1 a ham

/-- The per-entry function of the candidate filter returns none exactly
when the entry is excluded, lacks the task type, or cannot accept work. -/
lemma candidate_fun_eq_none (t : ResourceTracker) (task_type : String)
    (exclude : List String) (p : String × List String) :
    (if p.1 ∈ exclude then none
     else if task_type ∈ p.2 then
       (let a := (t.get_agent p.1).1
        if a.can_accept_task then some (p.1, a.context_remaining) else none)
     else none) = (none : Option (String × Int)) ↔
    (p.1 ∉ exclude → task_type ∈ p.2 →
       (t.get_agent p.1).1.can_accept_task = false) := by
  by_cases h1 : p.1 ∈ exclude
  · simp [h1]
  · by_cases h2 : task_type ∈ p.2
    · cases h3 : (t.get_agent p.1).1.can_accept_task <;> simp [h1, h2, h3]
    · simp [h1, h2]

/-- C6: best_agent_for returns None exactly when no entry of the fixed
capability table both declares the task type, avoids the exclude list,
and can accept work; membership in the candidate list is exactly that
conjunction paired with the agents remaining context; and a returned
agent is a candidate whose remaining context bounds every candidate. -/
theorem best_agent_for_spec (t : ResourceTracker) (task_type : String)
    (exclude : List String) :
    (t.best_agent_for task_type exclude = none ↔
       ∀ p ∈ capabilities, p.1 ∉ exclude → task_type ∈ p.2 →
         (t.get_agent p.1).1.can_accept_task = false) ∧
    (∀ name k, (name, k) ∈ candidateList t task_type exclude ↔
       ((∃ caps, (name, caps) ∈ capabilities ∧ task_type ∈ caps) ∧
        name ∉ exclude ∧
        (t.get_agent name).1.can_accept_task = true ∧
        k = (t.get_agent name).1.context_remaining)) ∧
    (∀ name, t.best_agent_for task_type exclude = some name →
       ∃ k, (name, k) ∈ candidateList t task_type exclude ∧
         ∀ q ∈ candidateList t task_type exclude, q.2 ≤ k) := by
  refine ⟨?_, ?_, ?_⟩
  · have hmatch : t.best_agent_for task_type exclude = none ↔
        candidateList t task_type exclude = [] := by
      unfold ResourceTracker.best_agent_for
      rcases hs : sortDesc (candidateList t task_type exclude) with _ | ⟨c, rest⟩
      · simp [(sortDesc_eq_nil_iff _).mp hs]
      · have hne : candidateList t task_type exclude ≠ [] := by
          intro h0
          rw [h0] at hs
          simp [sortDesc] at hs
        simp [hne]
    rw [hmatch]
    unfold candidateList
    rw [List.filterMap_eq_nil_iff]
    exact forall₂_congr (fun p _ => candidate_fun_eq_none t task_type exclude p)
  · intro name k
    constructor
    · intro hm
      rcases List.mem_filterMap.mp hm with ⟨p, hp, hfp⟩
      by_cases h1 : p.1 ∈ exclude
      · simp [h1] at hfp
      · by_cases h2 : task_type ∈ p.2
        · cases h3 : (t.get_agent p.1).1.can_accept_task
          · simp [h1, h2, h3] at hfp
          · simp only [h1, h2, h3, if_false, if_true, if_neg, if_pos] at hfp
            simp [h1, h2, h3] at hfp
            rcases hfp with ⟨rfl, rfl⟩
            exact ⟨⟨p.2, hp, h2⟩, h1, h3, rfl⟩
        · simp [h1, h2] at hfp
    · rintro ⟨⟨caps, hcaps, htype⟩, hex, hacc, rfl⟩
      refine List.mem_filterMap.mpr ⟨(name, caps), hcaps, ?_⟩
      simp [hex, htype, hacc]
  · intro name hname
    unfold ResourceTracker.best_agent_for at hname
    rcases hs : sortDesc (candidateList t task_type exclude) with _ | ⟨c, rest⟩
    · rw [hs] at hname
      simp at hname
    · rw [hs] at hname
      simp only [Option.some.injEq] at hname
      refine ⟨c.2, ?_, sortDesc_head_max hs⟩
      have hc : c ∈ candidateList t task_type exclude := by
        have : c ∈ sortDesc (candidateList t task_type exclude) := by
          rw [hs]; exact List.mem_cons_self c rest
        exact mem_sortDesc.mp this
      rw [← hname]
      simpa using hc

/-- Concrete witness for the C6 theorem: over a fresh tracker, the best
agent for code is codex, which is then a candidate of maximal remaining
context. -/
theorem best_agent_for_spec_witness :
    ∃ k, ("codex", k) ∈ candidateList ⟨[]⟩ "code" [] ∧
      ∀ q ∈ candidateList ⟨[]⟩ "code" [], q.2 ≤ k :=
  (best_agent_for_spec ⟨[]⟩ "code" []).2.2 "codex" (by
    have hacc : (ResourceTracker.get_agent ⟨[]⟩ "codex").1.can_accept_task = true := by
      simp [ResourceTracker.get_agent, lookupAgent, lookupTable,
        AGENT_CONTEXT_LIMITS, AgentResources.can_accept_task,
        AgentResources.is_exhausted, AgentResources.is_budget_exhausted,
        AgentResources.context_percent_used]
    simp [ResourceTracker.best_agent_for, candidateList, capabilities,
      sortDesc, insertDesc, hacc])

/-- C8: both read operations are total functions of the server state, so
every identifier gets a defined response: an unrecognized identifier (in
neither the cache nor the store) yields the status string unknown from
both operations, a recognized identifier yields a status response built
from the record, and task_result on a record that has not reached a
terminal state reports just the current status, with no result payload. -/
theorem read_operations_defined (mem : List (String × TaskRecord))
    (store : List TaskRecord) (tid : String) :
    (resolve_record mem store tid = none →
       task_status mem store tid = { task_id := tid, status := "unknown" } ∧
       task_result mem store tid = ResultResponse.unknown tid) ∧
    (∀ r, resolve_record mem store tid = some r →
       task_status mem store tid =
         { task_id := tid, status := r.status.value, progress := r.progress,
           started_at := r.started_at, completed_at := r.completed_at,
           error := r.error }) ∧
    (∀ r, resolve_record mem store tid = some r →
       (r.status = TaskStatus.pending ∨ r.status = TaskStatus.running) →
       task_result mem store tid = ResultResponse.statusOnly tid r.status.value) := by
  refine ⟨fun h => ?_, fun r h => ?_, fun r h hs => ?_⟩
  · constructor <;> simp [task_status, task_result, h]
  · simp [task_status, h]
  · have hterm : ¬(r.status = TaskStatus.completed ∨ r.status = TaskStatus.failed) := by
      rcases hs with hs | hs <;> simp [hs]
    simp [task_result, h, hterm]

/-- Concrete witness for the C8 theorem: an identifier in neither the
cache nor the store reports unknown, and a cached RUNNING record reports
its status with no result payload. -/
theorem read_operations_defined_witness :
    (task_status [] [] "missing" = { task_id := "missing", status := "unknown" } ∧
     task_result [] [] "missing" = ResultResponse.unknown "missing") ∧
    task_result [("task_2", c2ex_running)] [] "task_2" =
      ResultResponse.statusOnly "task_2" TaskStatus.running.value :=
  ⟨(read_operations_defined [] [] "missing").1 rfl,
   (read_operations_defined [("task_2", c2ex_running)] [] "task_2").2.2
     c2ex_running rfl (Or.inr rfl)⟩

/-- Updating the entry of one name rewrites its lookup. -/
lemma lookupAgent_map_update (l : List (String × AgentResources))
    (n : String) (a1 : AgentResources) :
    lookupAgent (l.map (fun p => if p.1 = n then (p.1, a1) else p)) n =
      (lookupAgent l n).map (fun _ => a1) := by
  induction l with
  | nil => rfl
  | cons p ps ih =>
      by_cases h : p.1 = n
      · simp [lookupAgent, h]
      · simp [lookupAgent, h, ih]

/-- Updating the entry of one name leaves every other lookup alone. -/
lemma lookupAgent_map_update_ne (l : List (String × AgentResources))
    (n m : String) (a1 : AgentResources) (h : m ≠ n) :
    lookupAgent (l.map (fun p => if p.1 = n then (p.1, a1) else p)) m =
      lookupAgent l m := by
  induction l with
  | nil => rfl
  | cons p ps ih =>
      have hnm : ¬n = m := fun hh => h hh.symm
      by_cases hp : p.1 = n
      · have hm : ¬p.1 = m := by rw [hp]; exact hnm
        simp [lookupAgent, hp, hm, ih, hnm, h]
      · by_cases hm : p.1 = m <;> simp [lookupAgent, hp, hm, ih, hnm, h]

/-- Appending a missing entry makes its lookup find it. -/
lemma lookupAgent_append_self (l : List (String × AgentResources))
    (n : String) (a : AgentResources) (h : lookupAgent l n = none) :
    lookupAgent (l ++ [(n, a)]) n = some a := by
  induction l with
  | nil => simp [lookupAgent]
  | cons p ps ih =>
      by_cases hp : p.1 = n
      · simp [lookupAgent, hp] at h
      · simp only [lookupAgent, hp] at h
        simp [lookupAgent, hp, ih h]

/-- Appending an entry for one name leaves every other lookup alone. -/
lemma lookupAgent_append_ne (l : List (String × AgentResources))
    (n : String) (a : AgentResources) (m : String) (h : m ≠ n) :
    lookupAgent (l ++ [(n, a)]) m = lookupAgent l m := by
  induction l with
  | nil =>
      have : ¬n = m := fun hh => h hh.symm
      simp [lookupAgent, this]
  | cons p ps ih =>
      by_cases hp : p.1 = m <;> simp [lookupAgent, hp, ih]

/-- After get_agent, the requested name is present and maps to the
returned entry. -/
lemma get_agent_lookup (t : ResourceTracker) (n : String) :
    lookupAgent (t.get_agent n).2.agents n = some (t.get_agent n).1 := by
  unfold ResourceTracker.get_agent
  rcases h : lookupAgent t.agents n with _ | a
  · simp only [h]
    exact lookupAgent_append_self _ _ _ h
  · simp [h]

/-- get_agent changes no lookup other than the requested name. -/
lemma get_agent_lookup_ne (t : ResourceTracker) (n m : String) (h : m ≠ n) :
    lookupAgent (t.get_agent n).2.agents m = lookupAgent t.agents m := by
  unfold ResourceTracker.get_agent
  rcases hl : lookupAgent t.agents n with _ | a
  · simp only [hl]
    exact lookupAgent_append_ne _ _ _ _ h
  · simp [hl]

/-- C9: record_task maps the named agent (created lazily when absent) to
its entry updated by AgentResources.record_task, which adds the token
count to both the session usage and the context-usage counter, stamps the
last-task time, and bumps completed on success or failed plus last error
on failure; every other agents lookup is untouched, and the written
ledger mirrors the whole updated agents table with the update time. -/
theorem record_task_spec (t : ResourceTracker) (name : String)
    (tokens : Int) (success : Bool) (error : Option String) (now : Rat) :
    lookupAgent (t.record_task name tokens success error now).1.agents name =
      some ((t.get_agent name).1.record_task tokens success error now) ∧
    (∀ m, m ≠ name →
       lookupAgent (t.record_task name tokens success error now).1.agents m =
         lookupAgent t.agents m) ∧
    (t.record_task name tokens success error now).2.agents =
      (t.record_task name tokens success error now).1.agents ∧
    (t.record_task name tokens success error now).2.updated_at = now ∧
    ((t.get_agent name).1.record_task tokens success error now).tokens_used_session =
      (t.get_agent name).1.tokens_used_session + tokens ∧
    ((t.get_agent name).1.record_task tokens success error now).context_used =
      (t.get_agent name).1.context_used + tokens ∧
    ((t.get_agent name).1.record_task tokens success error now).last_task_at =
      some now ∧
    (success = true →
       ((t.get_agent name).1.record_task tokens success error now).tasks_completed =
         (t.get_agent name).1.tasks_completed + 1 ∧
       ((t.get_agent name).1.record_task tokens success error now).tasks_failed =
         (t.get_agent name).1.tasks_failed ∧
       ((t.get_agent name).1.record_task tokens success error now).last_error =
         (t.get_agent name).1.last_error) ∧
    (success = false →
       ((t.get_agent name).1.record_task tokens success error now).tasks_failed =
         (t.get_agent name).1.tasks_failed + 1 ∧
       ((t.get_agent name).1.record_task tokens success error now).tasks_completed =
         (t.get_agent name).1.tasks_completed ∧
       ((t.get_agent name).1.record_task tokens success error now).last_error =
         error) := by
  refine ⟨?_, ?_, rfl, rfl, ?_, ?_, ?_, ?_, ?_⟩
  · show lookupAgent
      ((t.get_agent name).2.agents.map
        (fun p => if p.1 = name then (p.1, (t.get_agent name).1.record_task tokens success error now) else p))
      name = _
    rw [lookupAgent_map_update, get_agent_lookup]
    rfl
  · intro m hm
    show lookupAgent
      ((t.get_agent name).2.agents.map
        (fun p => if p.1 = name then (p.1, (t.get_agent name).1.record_task tokens success error now) else p))
      m = _
    rw [lookupAgent_map_update_ne _ _ _ _ hm, get_agent_lookup_ne _ _ _ hm]
  · cases success <;> simp [AgentResources.record_task]
  · cases success <;> simp [AgentResources.record_task]
  · cases success <;> simp [AgentResources.record_task]
  · intro hs
    subst hs
    refine ⟨?_, ?_, ?_⟩ <;> simp [AgentResources.record_task]
  · intro hs
    subst hs
    refine ⟨?_, ?_, ?_⟩ <;> simp [AgentResources.record_task]

/-- Concrete witness for the C9 theorem: recording a successful five
token task for a fresh hex agent updates its entry and bumps its
completed counter, and leaves the codex lookup unchanged. -/
theorem record_task_spec_witness :
    lookupAgent ((ResourceTracker.record_task ⟨[]⟩ "hex" 5 true none 0).1.agents) "hex" =
      some ((ResourceTracker.get_agent ⟨[]⟩ "hex").1.record_task 5 true none 0) ∧
    ((ResourceTracker.get_agent ⟨[]⟩ "hex").1.record_task 5 true none 0).tasks_completed =
      (ResourceTracker.get_agent ⟨[]⟩ "hex").1.tasks_completed + 1 ∧
    lookupAgent ((ResourceTracker.record_task ⟨[]⟩ "hex" 5 true none 0).1.agents) "codex" =
      lookupAgent ([] : List (String × AgentResources)) "codex" :=
  ⟨(record_task_spec ⟨[]⟩ "hex" 5 true none 0).1,
   ((record_task_spec ⟨[]⟩ "hex" 5 true none 0).2.2.2.2.2.2.2.1 rfl).1,
   (record_task_spec ⟨[]⟩ "hex" 5 true none 0).2.1 "codex" (by decide)⟩

/-- Concrete witness for the amended C3 theorem: the writes of a
successful run started from a fresh record all satisfy the invariant, and
reconciliation of a RUNNING record leaves the absent result absent. -/
theorem result_invariant_amended_witness :
    (∀ w ∈ (run_task "hex" "t1" "t2" 2 c4ex_record
        (ExecOutcome.success c4ex_result) none none).writes,
      (w.result.isSome = true ↔
        (w.status = TaskStatus.completed ∨ w.status = TaskStatus.failed))) ∧
    ((reconcileRecord "t2" c3ex_running).status = TaskStatus.failed ∧
     (reconcileRecord "t2" c3ex_running).result = c3ex_running.result) :=
  ⟨result_invariant_amended.2.1 "hex" "t1" "t2" 2 c4ex_record
      (ExecOutcome.success c4ex_result) none none rfl,
   result_invariant_amended.2.2.2 "t2" c3ex_running rfl⟩

end HexSwarm
